import Mathlib

/-!
Verification of the Incident Analysis Engine of the ERPNext Financial
Incident Replay repository.  The engine turns an incident record plus
authoritative ERP records into a structured, confidence-scored finding via
one of two mutually exclusive analysis paths (deterministic rules or
AI-assisted reasoning), applies a status policy, and reports the result.
Monetary amounts and confidence scores are modelled as rationals; fallible
external calls are modelled with explicit outcome types.
-/

/-- Terminal status of an incident after an analysis run
(OPEN → RESOLVED | UNDER_REVIEW | ANALYSIS_ERROR). -/
inductive IncidentStatus where
  | OPEN
  | UNDER_REVIEW
  | RESOLVED
  | ANALYSIS_ERROR
  deriving DecidableEq, Repr

/-- Symbolic code naming the kind of mismatch (or its absence) detected. -/
inductive DiscrepancySource where
  | PRICING_VARIANCE
  | NO_VARIANCE
  | DUPLICATE_MATCH
  | NO_DUPLICATE_FOUND
  | DELIVERY_BILLING_MISMATCH
  | NO_MISMATCH
  | INSUFFICIENT_DATA
  deriving DecidableEq, Repr

/-- Which analysis path (or failure mode) produced a finding. -/
inductive AnalysisSource where
  | RULE
  | AI
  | AI_FAILED
  | EXTRACTION_ERROR
  deriving DecidableEq, Repr

/-- Numeric map of the pricing comparison: invoice total, sales-order
total and their delta. -/
structure Breakdown where
  invoice_total : ℚ
  so_total : ℚ
  delta : ℚ
  deriving DecidableEq, Repr

/-- The analyzer output: a structured, confidence-scored finding. -/
structure Finding where
  discrepancy_source : DiscrepancySource
  difference_breakdown : Option Breakdown
  item_breakdown : List (String × ℚ)
  summary : String
  details : String
  conclusion : String
  confidence_score : ℚ
  analysis_source : AnalysisSource
  deriving DecidableEq, Repr

/-- Modelled from the spec: `StatusDecisionEngine.decide` (the Python
status-policy function is not in the repository sources; only its
documentation is).  Business thresholds applied to a finding:
INSUFFICIENT_DATA → UNDER_REVIEW; confidence below 0.5 → UNDER_REVIEW;
otherwise RESOLVED. -/
def StatusDecisionEngine.decide (f : Finding) : IncidentStatus :=
  if f.discrepancy_source = DiscrepancySource.INSUFFICIENT_DATA then
    IncidentStatus.UNDER_REVIEW
  else if f.confidence_score < 1/2 then
    IncidentStatus.UNDER_REVIEW
  else
    IncidentStatus.RESOLVED

/-- A line item of a sales invoice. -/
structure InvoiceItem where
  item_code : String
  quantity : ℚ
  rate : ℚ
  amount : ℚ
  deriving DecidableEq, Repr

/-- A line item of a sales order, carrying the agreed rate. -/
structure SOItem where
  item_code : String
  quantity : ℚ
  agreed_rate : ℚ
  deriving DecidableEq, Repr

/-- A raw sales invoice as returned by the ERP.  Monetary fields go through
a safe-numeric conversion, so an unparsable or absent total is `none` rather
than a silent zero.  The linked sales order is the invoice header
linkage field. -/
structure RawInvoice where
  name : String
  customer : Option String
  sales_order : Option String
  posting_date : Option ℤ
  items : List InvoiceItem
  taxes : List (String × ℚ)
  extra_charges : List (String × ℚ)
  total : Option ℚ
  deriving DecidableEq, Repr

/-- A raw sales order as returned by the ERP. -/
structure RawSalesOrder where
  name : String
  items : List SOItem
  agreed_total : Option ℚ
  deriving DecidableEq, Repr

/-- A raw customer record as returned by the ERP. -/
structure RawCustomer where
  name : String
  payment_terms : Option String
  deriving DecidableEq, Repr

/-- Outcome of one ERP lookup: the record, a not-found signal, or a
transport-level failure (network / 5xx). -/
inductive ERPResult (α : Type) where
  | found (a : α)
  | notFound
  | failure (cause : String)
  deriving DecidableEq, Repr

/-- The ERP capability interface consumed by the extractor. -/
structure ERPClient where
  get_invoice : String → ERPResult RawInvoice
  get_sales_order : String → ERPResult RawSalesOrder
  get_customer : String → ERPResult RawCustomer

/-- One call made against the ERP client, recorded so that claims about
which calls an extraction performs are statable. -/
inductive ERPCall where
  | invoiceCall (ref : String)
  | salesOrderCall (id : String)
  | customerCall (id : String)
  deriving DecidableEq, Repr

/-- Extraction outcome classification of a snapshot. -/
inductive ExtractionStatus where
  | SUCCESS
  | INCOMPLETE
  | ERROR
  deriving DecidableEq, Repr

/-- The read-only, point-in-time aggregate handed to every analysis path.
`related_invoices` carries the candidate invoices the duplicate analyzer
compares against. -/
structure ERPSnapshot where
  invoice : Option RawInvoice
  sales_order : Option RawSalesOrder
  customer : Option RawCustomer
  related_invoices : List RawInvoice
  missing_fields : List String
  extraction_status : ExtractionStatus
  deriving DecidableEq, Repr

/-- An error snapshot: no records, the given symbolic gaps, status ERROR. -/
def errorSnapshot (gaps : List String) : ERPSnapshot :=
  { invoice := none
    sales_order := none
    customer := none
    related_invoices := []
    missing_fields := gaps
    extraction_status := ExtractionStatus.ERROR }

/-- Modelled from the spec: `SnapshotExtractor.extract` (the Python
extractor is not in the repository sources).  Fetches the invoice by
reference; if not found (or the ERP fails) returns an ERROR snapshot with
the cause in `missing_fields` and makes no further calls.  Otherwise the
sales order is resolved through the invoice header linkage field, the
customer is fetched best-effort, and every missing critical field is listed
explicitly in `missing_fields`.  The returned trace lists the ERP calls
made, in order. -/
def SnapshotExtractor.extract (client : ERPClient) (erp_reference : String) :
    ERPSnapshot × List ERPCall :=
  match client.get_invoice erp_reference with
  | ERPResult.notFound =>
      (errorSnapshot ["invoice_not_found"], [ERPCall.invoiceCall erp_reference])
  | ERPResult.failure cause =>
      (errorSnapshot ["erp_client_failure", cause], [ERPCall.invoiceCall erp_reference])
  | ERPResult.found inv =>
      let soStep : Option RawSalesOrder × List ERPCall × List String :=
        match inv.sales_order with
        | none => (none, [], ["sales_order_not_linked"])
        | some soId =>
            match client.get_sales_order soId with
            | ERPResult.found so => (some so, [ERPCall.salesOrderCall soId], [])
            | ERPResult.notFound =>
                (none, [ERPCall.salesOrderCall soId], ["sales_order_not_found"])
            | ERPResult.failure _ =>
                (none, [ERPCall.salesOrderCall soId], ["sales_order_fetch_failed"])
      let custStep : Option RawCustomer × List ERPCall :=
        match inv.customer with
        | none => (none, [])
        | some cid =>
            match client.get_customer cid with
            | ERPResult.found c => (some c, [ERPCall.customerCall cid])
            | _ => (none, [ERPCall.customerCall cid])
      let gaps : List String :=
        (if inv.total = none then ["invoice_total_missing"] else []) ++ soStep.2.2
      ({ invoice := some inv
         sales_order := soStep.1
         customer := custStep.1
         related_invoices := []
         missing_fields := gaps
         extraction_status :=
           if gaps = [] then ExtractionStatus.SUCCESS else ExtractionStatus.INCOMPLETE },
       ERPCall.invoiceCall erp_reference :: (soStep.2.1 ++ custStep.2))

/-- Test fixture: an invoice with no linked sales order. -/
def testInvoiceNoSO : RawInvoice :=
  { name := "INV-1"
    customer := some "CUST-1"
    sales_order := none
    posting_date := some 0
    items := [{ item_code := "ITEM-A", quantity := 2, rate := 50, amount := 100 }]
    taxes := []
    extra_charges := []
    total := some 100 }

/-- Test fixture: a sales order with agreed total 900. -/
def testSO : RawSalesOrder :=
  { name := "SO-1"
    items := [{ item_code := "ITEM-A", quantity := 2, agreed_rate := 450 }]
    agreed_total := some 900 }

/-- Test fixture: an invoice totalling 1000, linked to sales order SO-1. -/
def testInvoiceLinked : RawInvoice :=
  { name := "INV-2"
    customer := some "CUST-1"
    sales_order := some "SO-1"
    posting_date := some 0
    items := [{ item_code := "ITEM-A", quantity := 2, rate := 500, amount := 1000 }]
    taxes := []
    extra_charges := []
    total := some 1000 }

/-- Test fixture: a customer record. -/
def testCustomer : RawCustomer :=
  { name := "CUST-1", payment_terms := some "NET30" }

/-- Test fixture: a deterministic in-memory ERP client serving the records
above and a not-found signal for everything else. -/
def fullClient : ERPClient :=
  { get_invoice := fun r =>
      if r = "INV-2" then ERPResult.found testInvoiceLinked
      else if r = "INV-1" then ERPResult.found testInvoiceNoSO
      else ERPResult.notFound
    get_sales_order := fun i =>
      if i = "SO-1" then ERPResult.found testSO else ERPResult.notFound
    get_customer := fun c =>
      if c = "CUST-1" then ERPResult.found testCustomer else ERPResult.notFound }

/-- The closed set of incident-type tags dispatched through the registry. -/
inductive IncidentType where
  | PRICING_ISSUE
  | DUPLICATE_INVOICE
  | DELIVERY_BILLING_MISMATCH
  | OTHER
  deriving DecidableEq, Repr

/-- The typed failure finding every analyzer falls back to when the
snapshot does not carry the data it needs: INSUFFICIENT_DATA, confidence
0.0, no numeric breakdown. -/
def insufficientDataFinding (src : AnalysisSource) (msg : String) : Finding :=
  { discrepancy_source := DiscrepancySource.INSUFFICIENT_DATA
    difference_breakdown := none
    item_breakdown := []
    summary := msg
    details := msg
    conclusion := "Manual review required"
    confidence_score := 0
    analysis_source := src }

/-- Tolerance (design constant) below which a pricing delta counts as no
variance: 0.01 currency units. -/
def pricingTolerance : ℚ := 1/100

/-- Relative magnitude of a pricing delta against the agreed total. -/
def relMagnitude (delta agreed : ℚ) : ℚ :=
  if agreed = 0 then |delta| else |delta| / |agreed|

/-- Modelled from the spec: confidence of a pricing-variance finding,
growing with the relative magnitude of the delta and capped at 0.95. -/
def pricingConfidence (delta agreed : ℚ) : ℚ :=
  min (19/20) (1/2 + relMagnitude delta agreed)

/-- Modelled from the spec: the core of `PricingIssueAnalyzer.analyze`
(the Python analyzer is not in the repository sources).  Missing sales
order or missing totals short-circuit to INSUFFICIENT_DATA with confidence
0.0; otherwise `delta = invoice.total - sales_order.agreed_total` decides
between NO_VARIANCE (confidence 1.0) and PRICING_VARIANCE with the
breakdown of the two totals and their delta. -/
def PricingIssueAnalyzer.core (s : ERPSnapshot) : Finding :=
  match s.invoice, s.sales_order with
  | some inv, some so =>
      match inv.total, so.agreed_total with
      | some it, some st =>
          if |it - st| ≤ pricingTolerance then
            { discrepancy_source := DiscrepancySource.NO_VARIANCE
              difference_breakdown := some { invoice_total := it, so_total := st, delta := it - st }
              item_breakdown := []
              summary := "invoice total matches the agreed sales order total"
              details := "difference within tolerance"
              conclusion := "No pricing variance"
              confidence_score := 1
              analysis_source := AnalysisSource.RULE }
          else
            { discrepancy_source := DiscrepancySource.PRICING_VARIANCE
              difference_breakdown := some { invoice_total := it, so_total := st, delta := it - st }
              item_breakdown := []
              summary := "invoice total deviates from the agreed sales order total"
              details := "difference exceeds tolerance"
              conclusion := "Pricing variance detected"
              confidence_score := pricingConfidence (it - st) st
              analysis_source := AnalysisSource.RULE }
      | _, _ => insufficientDataFinding AnalysisSource.RULE "monetary totals missing"
  | _, _ => insufficientDataFinding AnalysisSource.RULE "sales order not available"

/-- Time window (design parameter, days) inside which two invoices can be
considered duplicates. -/
def duplicateWindow : ℤ := 7

/-- Whether a candidate invoice matches the target as a possible duplicate:
same customer, totals within the pricing tolerance, posting dates within
the duplicate window. -/
def duplicateMatches (inv cand : RawInvoice) : Bool :=
  decide (cand.name ≠ inv.name) && decide (cand.customer = inv.customer) &&
  match inv.total, cand.total, inv.posting_date, cand.posting_date with
  | some t, some ct, some d, some cd =>
      decide (|t - ct| ≤ pricingTolerance) && decide (|d - cd| ≤ duplicateWindow)
  | _, _, _, _ => false

/-- Modelled from the spec: the core of `DuplicateInvoiceAnalyzer.analyze`.
Scans the related invoices of the snapshot for a duplicate of the target; a
match yields DUPLICATE_MATCH, no match yields NO_DUPLICATE_FOUND with
confidence 1.0 (confident there is no duplicate). -/
def DuplicateInvoiceAnalyzer.core (s : ERPSnapshot) : Finding :=
  match s.invoice with
  | none => insufficientDataFinding AnalysisSource.RULE "invoice not available"
  | some inv =>
      if (s.related_invoices.filter (duplicateMatches inv)).isEmpty then
        { discrepancy_source := DiscrepancySource.NO_DUPLICATE_FOUND
          difference_breakdown := none
          item_breakdown := []
          summary := "no duplicate invoice found in the matching window"
          details := "no other invoice for the same customer matches"
          conclusion := "No duplicate"
          confidence_score := 1
          analysis_source := AnalysisSource.RULE }
      else
        { discrepancy_source := DiscrepancySource.DUPLICATE_MATCH
          difference_breakdown := none
          item_breakdown :=
            (s.related_invoices.filter (duplicateMatches inv)).map
              (fun c => (c.name, c.total.getD 0))
          summary := "possible duplicate invoice detected"
          details := "another invoice for the same customer matches the total"
          conclusion := "Duplicate suspected"
          confidence_score := 9/10
          analysis_source := AnalysisSource.RULE }

/-- Ordered quantity of an item code on a sales order (0 when the code is
absent from the order). -/
def orderedQty (so : RawSalesOrder) (code : String) : ℚ :=
  (so.items.filter (fun it => it.item_code = code)).foldl
    (fun acc it => acc + it.quantity) 0

/-- Modelled from the spec: the core of
`DeliveryBillingMismatchAnalyzer.analyze`.  Every invoice item whose
invoiced quantity exceeds the ordered quantity for the same item code
(including items absent from the order) is aggregated into one finding
keyed by item code. -/
def DeliveryBillingMismatchAnalyzer.core (s : ERPSnapshot) : Finding :=
  match s.invoice, s.sales_order with
  | some inv, some so =>
      if (inv.items.filter (fun it => orderedQty so it.item_code < it.quantity)).isEmpty then
        { discrepancy_source := DiscrepancySource.NO_MISMATCH
          difference_breakdown := none
          item_breakdown := []
          summary := "invoiced quantities are covered by the sales order"
          details := "no over-billing found"
          conclusion := "No mismatch"
          confidence_score := 1
          analysis_source := AnalysisSource.RULE }
      else
        { discrepancy_source := DiscrepancySource.DELIVERY_BILLING_MISMATCH
          difference_breakdown := none
          item_breakdown :=
            (inv.items.filter (fun it => orderedQty so it.item_code < it.quantity)).map
              (fun it => (it.item_code, it.quantity - orderedQty so it.item_code))
          summary := "invoiced quantities exceed ordered quantities"
          details := "over-billed items aggregated by item code"
          conclusion := "Delivery and billing mismatch"
          confidence_score := 9/10
          analysis_source := AnalysisSource.RULE }
  | _, _ => insufficientDataFinding AnalysisSource.RULE "sales order not available"

/-- The central short-circuit: a snapshot that is not SUCCESS never reaches
an analyzer core.  ERROR snapshots become EXTRACTION_ERROR findings,
INCOMPLETE snapshots become INSUFFICIENT_DATA rule findings.  This is
enforced once here, not duplicated per analyzer. -/
def RuleAnalyzerRegistry.runAnalyzer (core : ERPSnapshot → Finding)
    (s : ERPSnapshot) : Finding :=
  match s.extraction_status with
  | ExtractionStatus.ERROR =>
      insufficientDataFinding AnalysisSource.EXTRACTION_ERROR "extraction failed"
  | ExtractionStatus.INCOMPLETE =>
      insufficientDataFinding AnalysisSource.RULE "snapshot incomplete"
  | ExtractionStatus.SUCCESS => core s

/-- `PricingIssueAnalyzer.analyze`, with the central short-circuit. -/
def PricingIssueAnalyzer.analyze : ERPSnapshot → Finding :=
  RuleAnalyzerRegistry.runAnalyzer PricingIssueAnalyzer.core

/-- `DuplicateInvoiceAnalyzer.analyze`, with the central short-circuit. -/
def DuplicateInvoiceAnalyzer.analyze : ERPSnapshot → Finding :=
  RuleAnalyzerRegistry.runAnalyzer DuplicateInvoiceAnalyzer.core

/-- `DeliveryBillingMismatchAnalyzer.analyze`, with the central
short-circuit. -/
def DeliveryBillingMismatchAnalyzer.analyze : ERPSnapshot → Finding :=
  RuleAnalyzerRegistry.runAnalyzer DeliveryBillingMismatchAnalyzer.core

/-- The registry lookup table: incident type → analyzer.  Adding a type is
a registration in this table, not an edit of an analyzer. -/
def RuleAnalyzerRegistry.lookup : IncidentType → Option (ERPSnapshot → Finding)
  | IncidentType.PRICING_ISSUE => some PricingIssueAnalyzer.analyze
  | IncidentType.DUPLICATE_INVOICE => some DuplicateInvoiceAnalyzer.analyze
  | IncidentType.DELIVERY_BILLING_MISMATCH => some DeliveryBillingMismatchAnalyzer.analyze
  | IncidentType.OTHER => none

/-- The rule path: dispatch through the registry; an unregistered type
degrades to an INSUFFICIENT_DATA rule finding. -/
def RulePath.run (ty : IncidentType) (s : ERPSnapshot) : Finding :=
  match RuleAnalyzerRegistry.lookup ty with
  | some analyze => analyze s
  | none => insufficientDataFinding AnalysisSource.RULE "no analyzer registered"

/-- Rendering of one invoice line for the analysis prompt. -/
def PromptBuilder.itemLine (it : InvoiceItem) : String :=
  "- " ++ it.item_code ++ " qty " ++ toString it.quantity ++
  " rate " ++ toString it.rate ++ " amount " ++ toString it.amount

/-- Rendering of one tax or charge line for the analysis prompt. -/
def PromptBuilder.taxLine (t : String × ℚ) : String :=
  "- " ++ t.1 ++ " amount " ++ toString t.2

/-- Rendering of one invoice-vs-sales-order comparison line. -/
def PromptBuilder.comparisonLine (so : RawSalesOrder) (it : InvoiceItem) : String :=
  "- " ++ it.item_code ++ " invoiced " ++ toString it.quantity ++
  " ordered " ++ toString (orderedQty so it.item_code)

/-- Rendering of an optional monetary amount. -/
def PromptBuilder.amountText : Option ℚ → String
  | some t => toString t
  | none => "missing"

/-- Modelled from the spec: `PromptBuilder.build` (the Python prompt
builder is not in the repository sources).  A pure rendering of the
invoice items of the snapshot, taxes, charges and the invoice-vs-sales-order
comparison into a textual analysis request, instructing the AI to answer
in a fixed JSON schema.  It reads nothing but the snapshot. -/
def PromptBuilder.build (s : ERPSnapshot) : String :=
  match s.invoice with
  | none => "No invoice data available."
  | some inv =>
      String.intercalate "\n"
        (["Analyze the following financial incident using only the data below.",
          "Invoice " ++ inv.name ++ " total " ++ PromptBuilder.amountText inv.total,
          "Items:"]
         ++ inv.items.map PromptBuilder.itemLine
         ++ ["Taxes:"] ++ inv.taxes.map PromptBuilder.taxLine
         ++ ["Extra charges:"] ++ inv.extra_charges.map PromptBuilder.taxLine
         ++ (match s.sales_order with
             | none => ["No linked sales order."]
             | some so =>
                 ["Sales order " ++ so.name ++ " agreed total " ++
                    PromptBuilder.amountText so.agreed_total,
                  "Invoice vs sales order comparison:"]
                 ++ inv.items.map (PromptBuilder.comparisonLine so))
         ++ ["Return a JSON object with fields summary, details, discrepancy_source, difference_breakdown, conclusion and confidence_score."])

/-- The raw AI response after JSON decoding: every required field may be
absent or malformed, hence optional. -/
structure RawAIResponse where
  summary : Option String
  details : Option String
  discrepancy_source : Option String
  conclusion : Option String
  confidence_score : Option ℚ
  invoice_total : Option ℚ
  so_total : Option ℚ
  deriving DecidableEq, Repr

/-- Outcome of one blocking AI call: a decoded response, a raised error,
or a timeout. -/
inductive AIOutcome where
  | ok (resp : RawAIResponse)
  | raised (msg : String)
  | timeout
  deriving DecidableEq, Repr

/-- The AI capability interface consumed by the AI path. -/
structure AIClient where
  analyze : String → AIOutcome
  is_available : Bool

/-- Decoding of the symbolic discrepancy code an AI response names. -/
def parseDiscrepancyCode : String → Option DiscrepancySource
  | "PRICING_VARIANCE" => some DiscrepancySource.PRICING_VARIANCE
  | "NO_VARIANCE" => some DiscrepancySource.NO_VARIANCE
  | "DUPLICATE_MATCH" => some DiscrepancySource.DUPLICATE_MATCH
  | "NO_DUPLICATE_FOUND" => some DiscrepancySource.NO_DUPLICATE_FOUND
  | "DELIVERY_BILLING_MISMATCH" => some DiscrepancySource.DELIVERY_BILLING_MISMATCH
  | "NO_MISMATCH" => some DiscrepancySource.NO_MISMATCH
  | "INSUFFICIENT_DATA" => some DiscrepancySource.INSUFFICIENT_DATA
  | _ => none

/-- The sentinel finding the mapper produces when the AI is unavailable,
times out, or answers outside the required schema. -/
def aiFailureFinding (msg : String) : Finding :=
  { discrepancy_source := DiscrepancySource.INSUFFICIENT_DATA
    difference_breakdown := none
    item_breakdown := []
    summary := msg
    details := msg
    conclusion := "AI analysis unavailable"
    confidence_score := 0
    analysis_source := AnalysisSource.AI_FAILED }

/-- Modelled from the spec: `ResponseMapper.map` (the Python mapper is not
in the repository sources).  Validates presence and type of every required
field of the AI response; unknown, missing or malformed fields are a
mapping failure yielding the AI_FAILED sentinel, never coerced with
defaults.  On success the finding carries `analysis_source = AI`. -/
def ResponseMapper.map (outcome : AIOutcome) : Finding :=
  match outcome with
  | AIOutcome.raised _ => aiFailureFinding "AI call failed"
  | AIOutcome.timeout => aiFailureFinding "AI call timed out"
  | AIOutcome.ok resp =>
      match resp.summary, resp.details, resp.conclusion,
            resp.discrepancy_source, resp.confidence_score with
      | some su, some de, some co, some dsRaw, some conf =>
          match parseDiscrepancyCode dsRaw with
          | none => aiFailureFinding "unknown discrepancy code"
          | some ds =>
              if 0 ≤ conf ∧ conf ≤ 1 then
                { discrepancy_source := ds
                  difference_breakdown :=
                    match resp.invoice_total, resp.so_total with
                    | some it, some st =>
                        some { invoice_total := it, so_total := st, delta := it - st }
                    | _, _ => none
                  item_breakdown := []
                  summary := su
                  details := de
                  conclusion := co
                  confidence_score := conf
                  analysis_source := AnalysisSource.AI }
              else aiFailureFinding "confidence out of range"
      | _, _, _, _, _ => aiFailureFinding "incomplete AI response"

/-- The AI path: an ERROR snapshot never reaches the AI; otherwise one
blocking call on the deterministically built prompt, mapped into a
finding. -/
def AIPath.run (ai : AIClient) (s : ERPSnapshot) : Finding :=
  if s.extraction_status = ExtractionStatus.ERROR then
    insufficientDataFinding AnalysisSource.EXTRACTION_ERROR "extraction failed"
  else
    ResponseMapper.map (ai.analyze (PromptBuilder.build s))

/-- The part of an incident record the engine reads. -/
structure Incident where
  id : ℕ
  erp_reference : String
  incident_type : IncidentType
  deriving DecidableEq, Repr

/-- Static configuration: the AI enabled/disabled switch. -/
structure Config where
  aiEnabled : Bool
  deriving DecidableEq, Repr

/-- The finding plus the final status the decision engine assigned; the
only artifact persisted onto the incident. -/
structure AnalysisResult where
  finding : Finding
  status : IncidentStatus
  deriving DecidableEq, Repr

/-- Path selection: a static configuration switch evaluated once at the
start of a run. -/
def Orchestrator.selectPathAI (cfg : Config) : Bool := cfg.aiEnabled

/-- Modelled from the spec: the orchestrator drives
EXTRACT → one of RULE_PATH or AI_PATH → DECIDE; the snapshot is built once
and passed by value to the single selected path, and the decision engine
is the only place status policy lives. -/
def Orchestrator.runAnalysis (cfg : Config) (erp : ERPClient) (ai : AIClient)
    (inc : Incident) : AnalysisResult :=
  let snap := (SnapshotExtractor.extract erp inc.erp_reference).1
  let finding :=
    if Orchestrator.selectPathAI cfg then AIPath.run ai snap
    else RulePath.run inc.incident_type snap
  { finding := finding, status := StatusDecisionEngine.decide finding }

/-- The only typed error the inbound trigger may raise. -/
inductive AnalyzeError where
  | incidentNotFound
  deriving DecidableEq, Repr

/-- The generic failure signal the caller receives when an unexpected
programming fault was caught at the outer boundary of the orchestrator. -/
def unexpectedFaultFinding (msg : String) : Finding :=
  { discrepancy_source := DiscrepancySource.INSUFFICIENT_DATA
    difference_breakdown := none
    item_breakdown := []
    summary := "unexpected error during analysis"
    details := msg
    conclusion := "Generic failure"
    confidence_score := 0
    analysis_source := AnalysisSource.EXTRACTION_ERROR }

/-- Modelled from the spec: the inbound trigger exposed to callers.
`fault`, when present, stands for an unexpected exception raised anywhere
in the pipeline (UnexpectedError); the outer boundary converts it into
`status = ANALYSIS_ERROR` instead of letting it escape.  A typed error is
returned only for incident-not-found. -/
def InboundTrigger.analyze (store : List Incident) (incidentId : ℕ) (cfg : Config)
    (erp : ERPClient) (ai : AIClient) (fault : Option String) :
    Except AnalyzeError AnalysisResult :=
  match store.find? (fun i => i.id == incidentId) with
  | none => Except.error AnalyzeError.incidentNotFound
  | some inc =>
      match fault with
      | some msg =>
          Except.ok { finding := unexpectedFaultFinding msg
                      status := IncidentStatus.ANALYSIS_ERROR }
      | none => Except.ok (Orchestrator.runAnalysis cfg erp ai inc)

/-- Test fixture: a well-formed AI response reporting a pricing variance. -/
def goodAIResponse : RawAIResponse :=
  { summary := some "invoice exceeds sales order"
    details := some "totals differ by 100"
    discrepancy_source := some "PRICING_VARIANCE"
    conclusion := some "review with procurement"
    confidence_score := some (9/10)
    invoice_total := some 1000
    so_total := some 900 }

/-- Test fixture: an AI client that always answers well-formed. -/
def workingAIClient : AIClient :=
  { analyze := fun _ => AIOutcome.ok goodAIResponse, is_available := true }

/-- Test fixture: an AI client that always times out. -/
def downAIClient : AIClient :=
  { analyze := fun _ => AIOutcome.timeout, is_available := false }

/-- Test fixture: the incident store used by the witnesses. -/
def testStore : List Incident :=
  [{ id := 1, erp_reference := "INV-2", incident_type := IncidentType.PRICING_ISSUE },
   { id := 2, erp_reference := "INV-1", incident_type := IncidentType.PRICING_ISSUE },
   { id := 3, erp_reference := "NOPE", incident_type := IncidentType.PRICING_ISSUE }]

/-- Test fixture: the snapshot extracted for the 1000-vs-900 pricing
scenario. -/
def pricingSnapshot : ERPSnapshot :=
  (SnapshotExtractor.extract fullClient "INV-2").1

/-- A finding literal used to exercise the status policy at its boundary. -/
def boundaryFinding (c : ℚ) : Finding :=
  { discrepancy_source := DiscrepancySource.PRICING_VARIANCE
    difference_breakdown := none
    item_breakdown := []
    summary := "pricing variance detected"
    details := "totals differ"
    conclusion := "review pricing"
    confidence_score := c
    analysis_source := AnalysisSource.RULE }

/-- The visual configuration of a status badge in the UI: background
class, text class and label (the `statusConfig` record values of the
StatusBadge component). -/
structure UIStatusConfig where
  bg : String
  text : String
  label : String
  deriving DecidableEq, Repr

/-- The `statusConfig` lookup of the StatusBadge component: the four
configured status keys map to their badge configuration, everything else
misses. -/
def statusConfig (status : String) : Option UIStatusConfig :=
  if status = "OPEN" then
    some { bg := "bg-slate-100", text := "text-slate-800", label := "Open" }
  else if status = "UNDER_REVIEW" then
    some { bg := "bg-amber-100", text := "text-amber-800", label := "Under Review" }
  else if status = "RESOLVED" then
    some { bg := "bg-green-100", text := "text-green-800", label := "Resolved" }
  else if status = "ERROR" then
    some { bg := "bg-red-100", text := "text-red-800", label := "Error" }
  else none

/-- The StatusBadge component resolves
`statusConfig[status as Status] || statusConfig.OPEN`: an unrecognized
status falls back to the OPEN configuration. -/
def StatusBadge.config (status : String) : UIStatusConfig :=
  (statusConfig status).getD
    { bg := "bg-slate-100", text := "text-slate-800", label := "Open" }

/-- What the confidence cell of a page shows: the dash placeholder or a
rounded percentage. -/
inductive ConfidenceCell where
  | dash
  | percent (n : ℤ)
  deriving DecidableEq, Repr

/-- JavaScript truthiness of the optional `confidence_score`: an absent
score and the score 0 are both falsy. -/
def scoreTruthy (score : Option ℚ) : Bool :=
  match score with
  | none => false
  | some q => decide (q ≠ 0)

/-- The confidence cell of the incidents list page:
the score renders as `(score * 100).toFixed(0)` percent when truthy and
as the dash otherwise; `toFixed(0)` rounds to the nearest integer, ties
upward, which on ℚ is `round`. -/
def IncidentsPage.confidenceText (score : Option ℚ) : ConfidenceCell :=
  if scoreTruthy score then ConfidenceCell.percent (round ((score.getD 0) * 100))
  else ConfidenceCell.dash

/-- `getConfidenceColor` of the incidents list page: falsy scores get the
neutral bar color, then green at 0.8, amber at 0.6, red below. -/
def IncidentsPage.getConfidenceColor (score : Option ℚ) : String :=
  if ¬ scoreTruthy score then "bg-slate-200"
  else if (4:ℚ)/5 ≤ score.getD 0 then "bg-green-500"
  else if (3:ℚ)/5 ≤ score.getD 0 then "bg-amber-500"
  else "bg-red-500"

/-- The confidence display of the incident detail page: the same
truthiness test guards the percentage rendering. -/
def IncidentDetailPage.confidenceText (score : Option ℚ) : ConfidenceCell :=
  if scoreTruthy score then ConfidenceCell.percent (round ((score.getD 0) * 100))
  else ConfidenceCell.dash

/-- `getConfidenceColor` of the incident detail page: falsy scores get
the neutral text color, then green at 0.8, amber at 0.6, red below. -/
def IncidentDetailPage.getConfidenceColor (score : Option ℚ) : String :=
  if ¬ scoreTruthy score then "text-slate-500"
  else if (4:ℚ)/5 ≤ score.getD 0 then "text-green-600"
  else if (3:ℚ)/5 ≤ score.getD 0 then "text-amber-600"
  else "text-red-600"

/-- C1: `StatusDecisionEngine.decide` returns UNDER_REVIEW exactly when the
finding has discrepancy source INSUFFICIENT_DATA or confidence below 0.5,
and RESOLVED otherwise; it is a total function of the finding alone, and at
the boundary confidence 0.50 yields RESOLVED while 0.499999 yields
UNDER_REVIEW. -/
theorem decide_spec :
    (∀ f : Finding,
      StatusDecisionEngine.decide f =
        (if f.discrepancy_source = DiscrepancySource.INSUFFICIENT_DATA ∨
            f.confidence_score < 1/2
         then IncidentStatus.UNDER_REVIEW else IncidentStatus.RESOLVED)) ∧
    (∀ f : Finding,
      f.discrepancy_source ≠ DiscrepancySource.INSUFFICIENT_DATA →
      f.confidence_score = 1/2 →
      StatusDecisionEngine.decide f = IncidentStatus.RESOLVED) ∧
    (∀ f : Finding,
      f.confidence_score = 499999/1000000 →
      StatusDecisionEngine.decide f = IncidentStatus.UNDER_REVIEW) := by
  refine ⟨?_, ?_, ?_⟩
  · intro f
    unfold StatusDecisionEngine.decide
    by_cases h : f.discrepancy_source = DiscrepancySource.INSUFFICIENT_DATA
    · simp [h]
    · by_cases h2 : f.confidence_score < 1/2 <;> simp [h, h2]
  · intro f h hc
    unfold StatusDecisionEngine.decide
    rw [if_neg h, hc]
    norm_num
  · intro f hc
    unfold StatusDecisionEngine.decide
    by_cases h : f.discrepancy_source = DiscrepancySource.INSUFFICIENT_DATA
    · simp [h]
    · rw [if_neg h, hc]
      norm_num

/-- C1 witness: the boundary cases at concrete findings. -/
theorem decide_spec_witness :
    StatusDecisionEngine.decide (boundaryFinding (1/2)) = IncidentStatus.RESOLVED ∧
    StatusDecisionEngine.decide (boundaryFinding (499999/1000000)) =
      IncidentStatus.UNDER_REVIEW :=
  ⟨decide_spec.2.1 (boundaryFinding (1/2)) (by decide) rfl,
   decide_spec.2.2 (boundaryFinding (499999/1000000)) rfl⟩

/-- C2: extraction fetches the invoice first; a missing invoice yields an
ERROR snapshot with `missing_fields = ["invoice_not_found"]` and exactly
one ERP call is made; a found invoice with no linked sales order yields an
INCOMPLETE snapshot with "sales_order_not_linked" recorded among the
missing fields (an expected business outcome, not an error). -/
theorem extract_not_found_and_unlinked :
    (∀ (client : ERPClient) (ref : String),
      client.get_invoice ref = ERPResult.notFound →
      (SnapshotExtractor.extract client ref).1.extraction_status = ExtractionStatus.ERROR ∧
      (SnapshotExtractor.extract client ref).1.missing_fields = ["invoice_not_found"] ∧
      (SnapshotExtractor.extract client ref).2 = [ERPCall.invoiceCall ref]) ∧
    (∀ (client : ERPClient) (ref : String) (inv : RawInvoice),
      client.get_invoice ref = ERPResult.found inv →
      inv.sales_order = none →
      "sales_order_not_linked" ∈ (SnapshotExtractor.extract client ref).1.missing_fields ∧
      (SnapshotExtractor.extract client ref).1.extraction_status =
        ExtractionStatus.INCOMPLETE) := by
  constructor
  · intro client ref h
    simp [SnapshotExtractor.extract, h, errorSnapshot]
  · intro client ref inv h hso
    by_cases ht : inv.total = none <;>
      simp [SnapshotExtractor.extract, h, hso, ht]

/-- C2 witness: concrete runs against the in-memory client. -/
theorem extract_not_found_and_unlinked_witness :
    (SnapshotExtractor.extract fullClient "NOPE").1.extraction_status =
      ExtractionStatus.ERROR ∧
    "sales_order_not_linked" ∈
      (SnapshotExtractor.extract fullClient "INV-1").1.missing_fields :=
  ⟨(extract_not_found_and_unlinked.1 fullClient "NOPE" (by decide)).1,
   (extract_not_found_and_unlinked.2 fullClient "INV-1" testInvoiceNoSO
      (by decide) rfl).1⟩

/-- C4: every snapshot the extractor produces satisfies the invariant: a
SUCCESS snapshot has no missing fields; an INCOMPLETE snapshot has a
nonempty `missing_fields` that explicitly names each missing critical
field (missing invoice total, unresolved sales order), with no silent
defaulting. -/
theorem snapshot_invariant (client : ERPClient) (ref : String) :
    ((SnapshotExtractor.extract client ref).1.extraction_status =
        ExtractionStatus.SUCCESS →
      (SnapshotExtractor.extract client ref).1.missing_fields = []) ∧
    ((SnapshotExtractor.extract client ref).1.extraction_status =
        ExtractionStatus.INCOMPLETE →
      (SnapshotExtractor.extract client ref).1.missing_fields ≠ [] ∧
      (∀ inv, (SnapshotExtractor.extract client ref).1.invoice = some inv →
        (inv.total = none →
          "invoice_total_missing" ∈
            (SnapshotExtractor.extract client ref).1.missing_fields) ∧
        (inv.sales_order = none →
          "sales_order_not_linked" ∈
            (SnapshotExtractor.extract client ref).1.missing_fields)) ∧
      ((SnapshotExtractor.extract client ref).1.sales_order = none →
        "sales_order_not_linked" ∈
            (SnapshotExtractor.extract client ref).1.missing_fields ∨
        "sales_order_not_found" ∈
            (SnapshotExtractor.extract client ref).1.missing_fields ∨
        "sales_order_fetch_failed" ∈
            (SnapshotExtractor.extract client ref).1.missing_fields)) := by
  rcases h : client.get_invoice ref with inv | _ | cause
  · rcases hso : inv.sales_order with _ | soId
    · by_cases ht : inv.total = none <;>
        simp [SnapshotExtractor.extract, h, hso, ht]
    · rcases hs : client.get_sales_order soId with so | _ | c <;>
        by_cases ht : inv.total = none <;>
          simp [SnapshotExtractor.extract, h, hso, hs, ht]
  · simp [SnapshotExtractor.extract, h, errorSnapshot]
  · simp [SnapshotExtractor.extract, h, errorSnapshot]

/-- C4 witness: a fully-resolved extraction has empty missing fields, and
an extraction whose invoice lacks a sales-order link names the gap. -/
theorem snapshot_invariant_witness :
    (SnapshotExtractor.extract fullClient "INV-2").1.missing_fields = [] ∧
    "sales_order_not_linked" ∈
      (SnapshotExtractor.extract fullClient "INV-1").1.missing_fields :=
  ⟨(snapshot_invariant fullClient "INV-2").1 (by decide),
   (((snapshot_invariant fullClient "INV-1").2 (by decide)).2.1
      testInvoiceNoSO (by decide)).2 rfl⟩

/-- Helper: the status decision engine never returns anything but
UNDER_REVIEW or RESOLVED. -/
theorem decide_under_or_resolved (f : Finding) :
    StatusDecisionEngine.decide f = IncidentStatus.UNDER_REVIEW ∨
    StatusDecisionEngine.decide f = IncidentStatus.RESOLVED := by
  unfold StatusDecisionEngine.decide
  split
  · exact Or.inl rfl
  · split
    · exact Or.inl rfl
    · exact Or.inr rfl

/-- Helper: an insufficient-data finding always decides to UNDER_REVIEW. -/
theorem decide_insufficient (src : AnalysisSource) (msg : String) :
    StatusDecisionEngine.decide (insufficientDataFinding src msg) =
      IncidentStatus.UNDER_REVIEW := by
  simp [StatusDecisionEngine.decide, insufficientDataFinding]

/-- Helper: the pricing analyzer core only emits rule findings. -/
theorem pricing_core_source (s : ERPSnapshot) :
    (PricingIssueAnalyzer.core s).analysis_source = AnalysisSource.RULE := by
  unfold PricingIssueAnalyzer.core
  (repeat' split) <;> simp [insufficientDataFinding]

/-- Helper: the duplicate analyzer core only emits rule findings. -/
theorem duplicate_core_source (s : ERPSnapshot) :
    (DuplicateInvoiceAnalyzer.core s).analysis_source = AnalysisSource.RULE := by
  unfold DuplicateInvoiceAnalyzer.core
  (repeat' split) <;> simp [insufficientDataFinding]

/-- Helper: the delivery/billing analyzer core only emits rule findings. -/
theorem delivery_core_source (s : ERPSnapshot) :
    (DeliveryBillingMismatchAnalyzer.core s).analysis_source = AnalysisSource.RULE := by
  unfold DeliveryBillingMismatchAnalyzer.core
  (repeat' split) <;> simp [insufficientDataFinding]

/-- Helper: the central wrapper emits rule findings or an
extraction-error finding. -/
theorem runAnalyzer_source (core : ERPSnapshot → Finding) (s : ERPSnapshot)
    (hcore : ∀ t, (core t).analysis_source = AnalysisSource.RULE) :
    (RuleAnalyzerRegistry.runAnalyzer core s).analysis_source = AnalysisSource.RULE ∨
    (RuleAnalyzerRegistry.runAnalyzer core s).analysis_source =
      AnalysisSource.EXTRACTION_ERROR := by
  unfold RuleAnalyzerRegistry.runAnalyzer
  rcases h : s.extraction_status <;> simp [h, insufficientDataFinding, hcore]

/-- Helper: the rule path only ever produces rule or extraction-error
findings. -/
theorem rulePath_source (ty : IncidentType) (s : ERPSnapshot) :
    (RulePath.run ty s).analysis_source = AnalysisSource.RULE ∨
    (RulePath.run ty s).analysis_source = AnalysisSource.EXTRACTION_ERROR := by
  cases ty
  · exact runAnalyzer_source _ s pricing_core_source
  · exact runAnalyzer_source _ s duplicate_core_source
  · exact runAnalyzer_source _ s delivery_core_source
  · simp [RulePath.run, RuleAnalyzerRegistry.lookup, insufficientDataFinding]

/-- Helper: the response mapper only produces AI or AI_FAILED findings. -/
theorem responseMapper_source (o : AIOutcome) :
    (ResponseMapper.map o).analysis_source = AnalysisSource.AI ∨
    (ResponseMapper.map o).analysis_source = AnalysisSource.AI_FAILED := by
  unfold ResponseMapper.map
  rcases o with resp | m
  · (repeat' split) <;> simp [aiFailureFinding]
  · simp [aiFailureFinding]
  · simp [aiFailureFinding]

/-- Helper: the AI path never produces a rule finding. -/
theorem aiPath_source (ai : AIClient) (s : ERPSnapshot) :
    (AIPath.run ai s).analysis_source ≠ AnalysisSource.RULE := by
  unfold AIPath.run
  split
  · simp [insufficientDataFinding]
  · rcases responseMapper_source (ai.analyze (PromptBuilder.build s)) with h | h <;>
      simp [h]

/-- Helper: confidence of a pricing variance grows with the relative
magnitude of the delta. -/
theorem pricingConfidence_mono (d₁ d₂ a : ℚ) (h : |d₁| ≤ |d₂|) :
    pricingConfidence d₁ a ≤ pricingConfidence d₂ a := by
  unfold pricingConfidence relMagnitude
  split
  · exact min_le_min le_rfl (by linarith)
  · refine min_le_min le_rfl (add_le_add_left ?_ _)
    have ha : (0:ℚ) < |a| := abs_pos.mpr (by assumption)
    exact (div_le_div_iff_of_pos_right ha).mpr h

/-- C3: the pricing analyzer returns INSUFFICIENT_DATA with confidence 0.0
whenever the snapshot has no sales order; otherwise, on a complete
snapshot with totals `it` and `st` and delta `it - st`, it returns
NO_VARIANCE with confidence 1.0 when the delta is within tolerance and
PRICING_VARIANCE otherwise, with confidence capped at 0.95, growing
monotonically with the relative magnitude of the delta, and a breakdown of
invoice total, sales-order total and delta. -/
theorem pricing_analyzer_spec :
    (∀ s : ERPSnapshot, s.sales_order = none →
      (PricingIssueAnalyzer.analyze s).discrepancy_source =
        DiscrepancySource.INSUFFICIENT_DATA ∧
      (PricingIssueAnalyzer.analyze s).confidence_score = 0) ∧
    (∀ (s : ERPSnapshot) (inv : RawInvoice) (so : RawSalesOrder) (it st : ℚ),
      s.extraction_status = ExtractionStatus.SUCCESS →
      s.invoice = some inv → s.sales_order = some so →
      inv.total = some it → so.agreed_total = some st →
      ((|it - st| ≤ pricingTolerance →
        (PricingIssueAnalyzer.analyze s).discrepancy_source =
          DiscrepancySource.NO_VARIANCE ∧
        (PricingIssueAnalyzer.analyze s).confidence_score = 1 ∧
        (PricingIssueAnalyzer.analyze s).difference_breakdown =
          some { invoice_total := it, so_total := st, delta := it - st }) ∧
      (¬ |it - st| ≤ pricingTolerance →
        (PricingIssueAnalyzer.analyze s).discrepancy_source =
          DiscrepancySource.PRICING_VARIANCE ∧
        (PricingIssueAnalyzer.analyze s).confidence_score =
          pricingConfidence (it - st) st ∧
        (PricingIssueAnalyzer.analyze s).confidence_score ≤ 19/20 ∧
        (PricingIssueAnalyzer.analyze s).difference_breakdown =
          some { invoice_total := it, so_total := st, delta := it - st }))) ∧
    (∀ d₁ d₂ a : ℚ, |d₁| ≤ |d₂| →
      pricingConfidence d₁ a ≤ pricingConfidence d₂ a) := by
  refine ⟨?_, ?_, pricingConfidence_mono⟩
  · intro s hso
    unfold PricingIssueAnalyzer.analyze RuleAnalyzerRegistry.runAnalyzer
    rcases h : s.extraction_status
    · unfold PricingIssueAnalyzer.core
      rcases hi : s.invoice with _ | inv <;> simp [hso, insufficientDataFinding]
    · simp [insufficientDataFinding]
    · simp [insufficientDataFinding]
  · intro s inv so it st hstat hinv hso ht hst
    unfold PricingIssueAnalyzer.analyze RuleAnalyzerRegistry.runAnalyzer
      PricingIssueAnalyzer.core
    simp only [hstat, hinv, hso, ht, hst]
    constructor
    · intro hle
      rw [if_pos hle]
      exact ⟨rfl, rfl, rfl⟩
    · intro hgt
      rw [if_neg hgt]
      exact ⟨rfl, rfl, min_le_left _ _, rfl⟩

/-- C3 witness: the 1000-vs-900 pricing scenario yields a variance finding
whose breakdown records delta 100. -/
theorem pricing_analyzer_spec_witness :
    (PricingIssueAnalyzer.analyze pricingSnapshot).discrepancy_source =
      DiscrepancySource.PRICING_VARIANCE ∧
    (PricingIssueAnalyzer.analyze pricingSnapshot).difference_breakdown =
      some { invoice_total := 1000, so_total := 900, delta := 100 } := by
  have h := (pricing_analyzer_spec.2.1 pricingSnapshot testInvoiceLinked testSO
      1000 900 rfl rfl rfl rfl rfl).2
      (by rw [pricingTolerance]; norm_num)
  refine ⟨h.1, ?_⟩
  rw [h.2.2.2]
  norm_num

/-- C5: each run selects exactly one path from the static configuration
switch: with AI enabled the result is derived entirely from the AI path on
the one extracted snapshot, with AI disabled entirely from the rule path;
the two paths can never contribute to one finding because the AI path
never emits rule findings and the rule path never emits AI or AI_FAILED
findings. -/
theorem single_path_per_run :
    (∀ (cfg : Config) (erp : ERPClient) (ai : AIClient) (inc : Incident),
      (cfg.aiEnabled = true →
        Orchestrator.runAnalysis cfg erp ai inc =
          { finding := AIPath.run ai (SnapshotExtractor.extract erp inc.erp_reference).1
            status := StatusDecisionEngine.decide
              (AIPath.run ai (SnapshotExtractor.extract erp inc.erp_reference).1) }) ∧
      (cfg.aiEnabled = false →
        Orchestrator.runAnalysis cfg erp ai inc =
          { finding := RulePath.run inc.incident_type
              (SnapshotExtractor.extract erp inc.erp_reference).1
            status := StatusDecisionEngine.decide
              (RulePath.run inc.incident_type
                (SnapshotExtractor.extract erp inc.erp_reference).1) })) ∧
    (∀ (ai : AIClient) (s : ERPSnapshot),
      (AIPath.run ai s).analysis_source ≠ AnalysisSource.RULE) ∧
    (∀ (ty : IncidentType) (s : ERPSnapshot),
      (RulePath.run ty s).analysis_source ≠ AnalysisSource.AI ∧
      (RulePath.run ty s).analysis_source ≠ AnalysisSource.AI_FAILED) := by
  refine ⟨?_, aiPath_source, ?_⟩
  · intro cfg erp ai inc
    constructor <;> intro h <;>
      simp [Orchestrator.runAnalysis, Orchestrator.selectPathAI, h]
  · intro ty s
    rcases rulePath_source ty s with h | h <;> rw [h] <;> exact ⟨by simp, by simp⟩

/-- C5 witness: a rule-only run on the pricing scenario equals the rule
path applied to the extracted snapshot. -/
theorem single_path_per_run_witness :
    Orchestrator.runAnalysis { aiEnabled := false } fullClient workingAIClient
        { id := 1, erp_reference := "INV-2", incident_type := IncidentType.PRICING_ISSUE } =
      { finding := RulePath.run IncidentType.PRICING_ISSUE
          (SnapshotExtractor.extract fullClient "INV-2").1
        status := StatusDecisionEngine.decide
          (RulePath.run IncidentType.PRICING_ISSUE
            (SnapshotExtractor.extract fullClient "INV-2").1) } :=
  (single_path_per_run.1 { aiEnabled := false } fullClient workingAIClient
      { id := 1, erp_reference := "INV-2", incident_type := IncidentType.PRICING_ISSUE }).2 rfl

/-- C6: when the AI raises, times out, or answers without a required
field, the mapper produces the AI_FAILED sentinel with confidence 0.0,
which the status engine sends to UNDER_REVIEW; at the trigger boundary
such a run still returns a successful result (no error escapes), with
status UNDER_REVIEW. -/
theorem ai_failure_fallback :
    (∀ m : String,
      (ResponseMapper.map (AIOutcome.raised m)).analysis_source =
        AnalysisSource.AI_FAILED ∧
      (ResponseMapper.map (AIOutcome.raised m)).confidence_score = 0 ∧
      StatusDecisionEngine.decide (ResponseMapper.map (AIOutcome.raised m)) =
        IncidentStatus.UNDER_REVIEW) ∧
    ((ResponseMapper.map AIOutcome.timeout).analysis_source =
        AnalysisSource.AI_FAILED ∧
     (ResponseMapper.map AIOutcome.timeout).confidence_score = 0 ∧
     StatusDecisionEngine.decide (ResponseMapper.map AIOutcome.timeout) =
       IncidentStatus.UNDER_REVIEW) ∧
    (∀ resp : RawAIResponse,
      resp.summary = none ∨ resp.details = none ∨ resp.conclusion = none ∨
        resp.discrepancy_source = none ∨ resp.confidence_score = none →
      (ResponseMapper.map (AIOutcome.ok resp)).analysis_source =
        AnalysisSource.AI_FAILED ∧
      (ResponseMapper.map (AIOutcome.ok resp)).confidence_score = 0) ∧
    (∀ (store : List Incident) (incidentId : ℕ) (cfg : Config)
       (erp : ERPClient) (ai : AIClient) (inc : Incident),
      store.find? (fun i => i.id == incidentId) = some inc →
      cfg.aiEnabled = true →
      (SnapshotExtractor.extract erp inc.erp_reference).1.extraction_status ≠
        ExtractionStatus.ERROR →
      ai.analyze (PromptBuilder.build
        (SnapshotExtractor.extract erp inc.erp_reference).1) = AIOutcome.timeout →
      ∃ r, InboundTrigger.analyze store incidentId cfg erp ai none = Except.ok r ∧
        r.status = IncidentStatus.UNDER_REVIEW ∧
        r.finding.analysis_source = AnalysisSource.AI_FAILED ∧
        r.finding.confidence_score = 0) := by
  refine ⟨?_, ?_, ?_, ?_⟩
  · intro m
    simp [ResponseMapper.map, aiFailureFinding, StatusDecisionEngine.decide]
  · simp [ResponseMapper.map, aiFailureFinding, StatusDecisionEngine.decide]
  · intro resp h
    rcases resp with ⟨su, de, ds, co, conf, ivt, sot⟩
    rcases su with _ | su <;> rcases de with _ | de <;> rcases co with _ | co <;>
      rcases ds with _ | ds <;> rcases conf with _ | conf <;>
        simp_all [ResponseMapper.map, aiFailureFinding]
  · intro store incidentId cfg erp ai inc hfind hcfg hsnap hai
    refine ⟨Orchestrator.runAnalysis cfg erp ai inc, ?_, ?_⟩
    · simp [InboundTrigger.analyze, hfind]
    · simp [Orchestrator.runAnalysis, Orchestrator.selectPathAI, hcfg,
        AIPath.run, if_neg hsnap, hai, ResponseMapper.map, aiFailureFinding,
        StatusDecisionEngine.decide]

/-- C6 witness: a run with the timing-out AI client on the pricing
scenario ends in a successful UNDER_REVIEW result with the AI_FAILED
sentinel. -/
theorem ai_failure_fallback_witness :
    ∃ r, InboundTrigger.analyze testStore 1 { aiEnabled := true } fullClient
        downAIClient none = Except.ok r ∧
      r.status = IncidentStatus.UNDER_REVIEW ∧
      r.finding.analysis_source = AnalysisSource.AI_FAILED ∧
      r.finding.confidence_score = 0 :=
  ai_failure_fallback.2.2.2 testStore 1 { aiEnabled := true } fullClient
    downAIClient { id := 1, erp_reference := "INV-2", incident_type := IncidentType.PRICING_ISSUE }
    rfl rfl (by decide) rfl

/-- C7: the inbound trigger raises a typed error exactly when the incident
is not found; whenever the incident exists the call resolves to a valid
result whose status is UNDER_REVIEW, RESOLVED or ANALYSIS_ERROR, with an
unexpected pipeline fault converted to ANALYSIS_ERROR at the outer
boundary and an extraction failure (invoice absent in the ERP) resolving
to UNDER_REVIEW. -/
theorem inbound_trigger_spec :
    (∀ (store : List Incident) (incidentId : ℕ) (cfg : Config) (erp : ERPClient)
       (ai : AIClient) (fault : Option String),
      (InboundTrigger.analyze store incidentId cfg erp ai fault =
          Except.error AnalyzeError.incidentNotFound ↔
        store.find? (fun i => i.id == incidentId) = none) ∧
      (∀ e, InboundTrigger.analyze store incidentId cfg erp ai fault =
          Except.error e → e = AnalyzeError.incidentNotFound)) ∧
    (∀ (store : List Incident) (incidentId : ℕ) (cfg : Config) (erp : ERPClient)
       (ai : AIClient) (fault : Option String) (inc : Incident),
      store.find? (fun i => i.id == incidentId) = some inc →
      ∃ r, InboundTrigger.analyze store incidentId cfg erp ai fault = Except.ok r ∧
        (r.status = IncidentStatus.UNDER_REVIEW ∨ r.status = IncidentStatus.RESOLVED ∨
         r.status = IncidentStatus.ANALYSIS_ERROR)) ∧
    (∀ (store : List Incident) (incidentId : ℕ) (cfg : Config) (erp : ERPClient)
       (ai : AIClient) (msg : String) (inc : Incident),
      store.find? (fun i => i.id == incidentId) = some inc →
      InboundTrigger.analyze store incidentId cfg erp ai (some msg) =
        Except.ok { finding := unexpectedFaultFinding msg
                    status := IncidentStatus.ANALYSIS_ERROR }) ∧
    (∀ (store : List Incident) (incidentId : ℕ) (cfg : Config) (erp : ERPClient)
       (ai : AIClient) (inc : Incident),
      store.find? (fun i => i.id == incidentId) = some inc →
      erp.get_invoice inc.erp_reference = ERPResult.notFound →
      ∃ r, InboundTrigger.analyze store incidentId cfg erp ai none = Except.ok r ∧
        r.status = IncidentStatus.UNDER_REVIEW) := by
  refine ⟨?_, ?_, ?_, ?_⟩
  · intro store incidentId cfg erp ai fault
    constructor
    · unfold InboundTrigger.analyze
      rcases h : store.find? (fun i => i.id == incidentId) with _ | inc
      · simp only [h]
      · rcases fault with _ | msg <;> simp only [h] <;> simp
    · intro e
      unfold InboundTrigger.analyze
      rcases h : store.find? (fun i => i.id == incidentId) with _ | inc
      · simp only [h]
        intro _
        rcases e
        trivial
      · rcases fault with _ | msg <;> simp only [h] <;> simp
  · intro store incidentId cfg erp ai fault inc hfind
    unfold InboundTrigger.analyze
    rw [hfind]
    rcases fault with _ | msg
    · refine ⟨Orchestrator.runAnalysis cfg erp ai inc, rfl, ?_⟩
      rcases decide_under_or_resolved
          (if Orchestrator.selectPathAI cfg then
            AIPath.run ai (SnapshotExtractor.extract erp inc.erp_reference).1
          else RulePath.run inc.incident_type
            (SnapshotExtractor.extract erp inc.erp_reference).1) with h | h
      · exact Or.inl h
      · exact Or.inr (Or.inl h)
    · exact ⟨_, rfl, Or.inr (Or.inr rfl)⟩
  · intro store incidentId cfg erp ai msg inc hfind
    unfold InboundTrigger.analyze
    rw [hfind]
  · intro store incidentId cfg erp ai inc hfind herp
    refine ⟨Orchestrator.runAnalysis cfg erp ai inc, ?_, ?_⟩
    · simp [InboundTrigger.analyze, hfind]
    · have hsnap : (SnapshotExtractor.extract erp inc.erp_reference).1 =
          errorSnapshot ["invoice_not_found"] := by
        simp [SnapshotExtractor.extract, herp]
      unfold Orchestrator.runAnalysis
      rw [hsnap]
      rcases hsel : Orchestrator.selectPathAI cfg
      · simp only [Bool.false_eq_true, if_false]
        cases hty : inc.incident_type <;>
          simp [RulePath.run, RuleAnalyzerRegistry.lookup,
            PricingIssueAnalyzer.analyze, DuplicateInvoiceAnalyzer.analyze,
            DeliveryBillingMismatchAnalyzer.analyze,
            RuleAnalyzerRegistry.runAnalyzer, errorSnapshot,
            insufficientDataFinding, StatusDecisionEngine.decide]
      · simp [AIPath.run, errorSnapshot, insufficientDataFinding,
          StatusDecisionEngine.decide]

/-- C7 witness: a pipeline fault resolves to ANALYSIS_ERROR, and an
incident whose ERP reference has no invoice resolves to UNDER_REVIEW;
neither raises. -/
theorem inbound_trigger_spec_witness :
    InboundTrigger.analyze testStore 1 { aiEnabled := true } fullClient
        workingAIClient (some "boom") =
      Except.ok { finding := unexpectedFaultFinding "boom"
                  status := IncidentStatus.ANALYSIS_ERROR } ∧
    ∃ r, InboundTrigger.analyze testStore 3 { aiEnabled := true } fullClient
        workingAIClient none = Except.ok r ∧
      r.status = IncidentStatus.UNDER_REVIEW :=
  ⟨inbound_trigger_spec.2.2.1 testStore 1 { aiEnabled := true } fullClient
      workingAIClient "boom"
      { id := 1, erp_reference := "INV-2", incident_type := IncidentType.PRICING_ISSUE } rfl,
   inbound_trigger_spec.2.2.2 testStore 3 { aiEnabled := true } fullClient
      workingAIClient
      { id := 3, erp_reference := "NOPE", incident_type := IncidentType.PRICING_ISSUE }
      rfl rfl⟩

/-- C8: the prompt builder and every registered rule analyzer are
deterministic functions of the snapshot alone: equal snapshots give
byte-identical prompts and identical findings on repeated invocations. -/
theorem prompt_and_rule_determinism :
    ∀ (s t : ERPSnapshot), s = t →
      PromptBuilder.build s = PromptBuilder.build t ∧
      (∀ (ty : IncidentType) (analyze : ERPSnapshot → Finding),
        RuleAnalyzerRegistry.lookup ty = some analyze → analyze s = analyze t) := by
  rintro s t rfl
  exact ⟨rfl, fun ty analyze h => rfl⟩

/-- C8 witness: two invocations on the pricing-scenario snapshot agree,
for the prompt builder and for the registered pricing analyzer. -/
theorem prompt_and_rule_determinism_witness :
    PromptBuilder.build pricingSnapshot = PromptBuilder.build pricingSnapshot ∧
    PricingIssueAnalyzer.analyze pricingSnapshot =
      PricingIssueAnalyzer.analyze pricingSnapshot :=
  ⟨(prompt_and_rule_determinism pricingSnapshot pricingSnapshot rfl).1,
   (prompt_and_rule_determinism pricingSnapshot pricingSnapshot rfl).2
     IncidentType.PRICING_ISSUE PricingIssueAnalyzer.analyze rfl⟩

/-- C9: StatusBadge is total over arbitrary status strings: every status
outside the four configured keys falls back to the OPEN configuration and
renders the label "Open" — in particular the backend statuses
ANALYSIS_ERROR and ANALYZED display as "Open". -/
theorem statusBadge_fallback :
    (∀ status : String,
      status ≠ "OPEN" → status ≠ "UNDER_REVIEW" → status ≠ "RESOLVED" →
      status ≠ "ERROR" →
      StatusBadge.config status =
        { bg := "bg-slate-100", text := "text-slate-800", label := "Open" } ∧
      (StatusBadge.config status).label = "Open") ∧
    (StatusBadge.config "ANALYSIS_ERROR").label = "Open" ∧
    (StatusBadge.config "ANALYZED").label = "Open" := by
  refine ⟨?_, rfl, rfl⟩
  intro status h1 h2 h3 h4
  simp [StatusBadge.config, statusConfig, h1, h2, h3, h4]

/-- C9 witness: the fallback at the concrete unrecognized status
ANALYSIS_ERROR. -/
theorem statusBadge_fallback_witness :
    StatusBadge.config "ANALYSIS_ERROR" =
      { bg := "bg-slate-100", text := "text-slate-800", label := "Open" } :=
  (statusBadge_fallback.1 "ANALYSIS_ERROR"
    (by decide) (by decide) (by decide) (by decide)).1

/-- C10: on both incident pages a confidence score of exactly 0 renders
as the dash with the neutral color — indistinguishable from an incident
that was never analyzed — because the rendering tests JavaScript
truthiness; every positive score renders as round(score*100) percent. -/
theorem confidence_zero_renders_absent :
    (IncidentsPage.confidenceText (some 0) = ConfidenceCell.dash ∧
     IncidentsPage.confidenceText none = ConfidenceCell.dash ∧
     IncidentsPage.getConfidenceColor (some 0) = "bg-slate-200" ∧
     IncidentsPage.getConfidenceColor none = "bg-slate-200" ∧
     IncidentDetailPage.confidenceText (some 0) = ConfidenceCell.dash ∧
     IncidentDetailPage.confidenceText none = ConfidenceCell.dash ∧
     IncidentDetailPage.getConfidenceColor (some 0) = "text-slate-500" ∧
     IncidentDetailPage.getConfidenceColor none = "text-slate-500") ∧
    (∀ q : ℚ, 0 < q →
      IncidentsPage.confidenceText (some q) =
        ConfidenceCell.percent (round (q * 100)) ∧
      IncidentDetailPage.confidenceText (some q) =
        ConfidenceCell.percent (round (q * 100))) := by
  constructor
  · refine ⟨?_, rfl, ?_, rfl, ?_, rfl, ?_, rfl⟩ <;>
      simp [IncidentsPage.confidenceText, IncidentsPage.getConfidenceColor,
        IncidentDetailPage.confidenceText, IncidentDetailPage.getConfidenceColor,
        scoreTruthy]
  · intro q hq
    have ht : scoreTruthy (some q) = true := by
      simp [scoreTruthy]
      exact ne_of_gt hq
    constructor <;>
      simp [IncidentsPage.confidenceText, IncidentDetailPage.confidenceText, ht]

/-- C10 witness: the positive score 0.925 renders as 93 percent on the
list page. -/
theorem confidence_zero_renders_absent_witness :
    IncidentsPage.confidenceText (some ((37:ℚ)/40)) = ConfidenceCell.percent 93 := by
  have h := (confidence_zero_renders_absent.2 ((37:ℚ)/40) (by norm_num)).1
  rw [h]
  norm_num [round_eq]
